import Mathlib

/-!
Verification development for `bong_epub/scrape.py`.

The embedding models the five functions of `scrape.py`
(`extract_preview_links_and_titles`, `get_paragraphs_from_url`,
`get_title_and_author`, `get_cover_picture`, `save_book`) and the
orchestrator `scrape_book_from_url`, over

* an HTML tree type `Node` standing for the BeautifulSoup parse tree,
  with the traversal primitives the code uses (`find_all`, `find`,
  `get_text(strip=True)`, attribute lookup, class matching);
* an abstract transport `Fetch` (a `requests.get` + `raise_for_status`
  oracle: `.error ()` is a raised `requests.RequestException`, which
  includes the `HTTPError` of a non-2xx status) and an abstract image
  decoder `Decode` standing for `PIL.Image.open`;
* an event trace for the filesystem effects of `save_book`
  (temporary cover file, final EPUB file) and a URL log for fetches.

Python-semantics notes reflected in the definitions:

* `dict` insertion (Python ≥ 3.7) preserves insertion order and a
  repeated key keeps its original position while its value is updated
  (`dictInsert`);
* `bs4.Tag.__bool__` returns `True` unconditionally ("A tag is
  non-None, so it's always true"), so `if not tag:` after a `find`
  call is exactly a `None` test;
* `tempfile.NamedTemporaryFile(delete=False)` creates a file that is
  NOT removed when the handle is closed; only an explicit
  `os.remove`/`unlink` (which `save_book` never performs) would emit a
  `FsEvent.removeFile` event;
* `str.split(sep)` with a non-empty separator behaves as
  `String.splitOn`, and `x in s` (substring) is `containsSub`.
-/

set_option autoImplicit false

namespace BongEpub

/-! An HTML parse-tree node: an element with a tag name, its (multi-valued)
`class` attribute, its other attributes, and children; or a text node.
(`NodeList` is an inlined list of children, mutual with `Node`, so that
the traversals below are structural and compute inside the kernel.) -/
mutual
inductive Node where
  | elem (tag : String) (classes : List String) (attrs : List (String × String)) (children : NodeList)
  | text (s : String)
inductive NodeList where
  | nil
  | cons (hd : Node) (tl : NodeList)
end

/-- Build a `NodeList` from a plain list. -/
def NodeList.ofList : List Node → NodeList
  | [] => .nil
  | n :: ns => .cons n (NodeList.ofList ns)

/-- An element node with its children given as a plain list. -/
def Node.el (tag : String) (classes : List String)
    (attrs : List (String × String)) (children : List Node) : Node :=
  .elem tag classes attrs (NodeList.ofList children)

/-! All descendants of a node (excluding the node itself) in document
(pre-)order: each child, then that child's own descendants, then the
later siblings. -/
mutual
def Node.descendants : Node → List Node
  | .text _ => []
  | .elem _ _ _ ch => NodeList.descendantsL ch
def NodeList.descendantsL : NodeList → List Node
  | .nil => []
  | .cons n tl => n :: (Node.descendants n ++ NodeList.descendantsL tl)
end

/-- `tag.find_all(pred)` / `soup.find_all(pred)`: the descendants of `n`
(excluding `n` itself) satisfying the predicate, in document order. -/
def Node.findAll (p : Node → Bool) (n : Node) : List Node :=
  (Node.descendants n).filter p

/-- `tag.find(pred)`: first matching descendant, or `None`. -/
def Node.find1 (p : Node → Bool) (n : Node) : Option Node :=
  (n.findAll p).head?

/-- Does the node's `class` attribute contain the given class
(bs4 `class_="c"` matching)? -/
def matchesClass (cls : String) : Node → Bool
  | .elem _ classes _ _ => classes.contains cls
  | .text _ => false

/-- Is the node an element with the given tag name? -/
def isTag (t : String) : Node → Bool
  | .elem tag _ _ _ => tag == t
  | .text _ => false

/-- bs4 `attr=True` filtering: the element carries the attribute. -/
def hasAttr (k : String) : Node → Bool
  | .elem _ _ attrs _ => attrs.any (fun p => p.1 == k)
  | .text _ => false

/-- `tag.get(k)` / `tag[k]`: the attribute's value, if present. -/
def attrGet (k : String) : Node → Option String
  | .elem _ _ attrs _ => (attrs.find? (fun p => p.1 == k)).map Prod.snd
  | .text _ => none

/-! The text segments at or below a node, in document order. -/
mutual
def Node.textsOf : Node → List String
  | .text s => [s]
  | .elem _ _ _ ch => NodeList.textsOfL ch
def NodeList.textsOfL : NodeList → List String
  | .nil => []
  | .cons n tl => Node.textsOf n ++ NodeList.textsOfL tl
end

/-- The whitespace characters removed by Python's `str.strip()` (the
ASCII ones; the inputs of this development contain no exotic Unicode
spaces). -/
def isPySpace (c : Char) : Bool :=
  c == ' ' || c == '\t' || c == '\n' || c == '\r' ||
    c == Char.ofNat 0x0B || c == Char.ofNat 0x0C

/-- Python `s.strip()`. -/
def pyStrip (s : String) : String :=
  String.mk (((s.data.dropWhile isPySpace).reverse.dropWhile isPySpace).reverse)

/-- The worker of `pySplitOn`: scan left to right, and at each match of
the (non-empty) separator emit the part accumulated so far and skip the
separator. `fuel` starts at the input length, which the scan never
exhausts; it only makes the recursion structural. -/
def splitChars (sep : List Char) : Nat → List Char → List Char → List (List Char)
  | 0, xs, acc => [acc.reverse ++ xs]
  | _ + 1, [], acc => [acc.reverse]
  | fuel + 1, c :: rest, acc =>
    if sep.isPrefixOf (c :: rest) then
      acc.reverse :: splitChars sep fuel ((c :: rest).drop sep.length) []
    else
      splitChars sep fuel rest (c :: acc)

/-- Python `s.split(sep)` for a non-empty separator. -/
def pySplitOn (s sep : String) : List String :=
  (splitChars sep.data s.data.length s.data []).map String.mk

/-- Python `sep.join(parts)`. -/
def joinWith (sep : String) : List String → String
  | [] => ""
  | [x] => x
  | x :: y :: xs => x ++ sep ++ joinWith sep (y :: xs)

/-- `tag.get_text(strip=True)`: each descendant string stripped, the
whitespace-only ones dropped, the rest concatenated. -/
def getTextStrip (n : Node) : String :=
  joinWith "" (((Node.textsOf n).map pyStrip).filter (fun s => s ≠ ""))

/-- Python `sub in s` substring test (for a non-empty `sub`). -/
def containsSub (s sub : String) : Bool :=
  (pySplitOn s sub).length != 1

/-- Python `dict` assignment `m[k] = v`: an existing key keeps its
position and gets the new value; a new key is appended at the end. -/
def dictInsert (m : List (String × String)) (k v : String) : List (String × String) :=
  if m.any (fun p => p.1 == k) then
    m.map (fun p => if p.1 == k then (k, v) else p)
  else m ++ [(k, v)]

/-- The Python exceptions the scraper can raise (there is no
`MetadataError`, `ContentTypeError` or `FetchError` class in the code;
the raw exception types below are what actually escapes). -/
inductive PyError where
  /-- `requests.RequestException`, including the `HTTPError` raised by
  `raise_for_status` on a non-2xx response. -/
  | requestException
  /-- The `ValueError` raised by `get_paragraphs_from_url` when the
  `Content-Type` header does not contain `"html"`. -/
  | contentTypeError (ct : String)
  /-- `RuntimeError("Failed to fetch URL ...")` raised by
  `get_title_and_author` when its page fetch fails. -/
  | runtimeError
  /-- `IndexError: list index out of range` from `[...][0]` on an empty
  list in `get_title_and_author`. -/
  | indexError
  /-- The `ValueError` of unpacking `title, author = ...` when the split
  does not have exactly two parts. -/
  | valueError
  /-- `AttributeError` from `None.split(" ")` when a `source` tag has no
  `srcset` attribute in `get_cover_picture`. -/
  | attributeError
  /-- A non-`RequestException` failure of `PIL.Image.open` (for example
  `UnidentifiedImageError`), which `get_cover_picture` does not catch. -/
  | imageDecodeError
  /-- An injected failure of the external `pypub` chapter-writing call
  inside `save_book`. -/
  | chapterWriteError
deriving Repr, DecidableEq

/-- A decoded `PIL.Image.Image`, kept abstract as its payload bytes. -/
structure PILImage where
  data : String
deriving Repr, DecidableEq

/-- An HTTP response, as the code consumes it: the `Content-Type` header,
the parsed HTML body (`BeautifulSoup(response.text, "html.parser")`), and
the raw `response.content` bytes (used for images). -/
structure Response where
  contentType : String
  body : Node
  content : String

/-- The transport oracle: `requests.get(url)` followed by
`raise_for_status()`; `.error ()` is a raised `requests.RequestException`. -/
abbrev Fetch := String → Except Unit Response

/-- The image decoder oracle: `PIL.Image.open(BytesIO(bytes))`;
`.error ()` is a raised decode error (not a `RequestException`). -/
abbrev Decode := String → Except Unit PILImage

/-! ## `extract_preview_links_and_titles` -/

/-- The containers scanned by the Link Extractor:
`soup.find_all("div", class_="ld-item-list-item-preview")`. -/
def previewDivs (soup : Node) : List Node :=
  soup.findAll (fun n => isTag "div" n && matchesClass "ld-item-list-item-preview" n)

/-- The per-container body of the Link Extractor's loop:
first anchor with an `href` (else skip), `href` stripped, first
`div.ld-item-title` nested below the anchor (else skip), its stripped
text as the title. -/
def containerEntry (preview_div : Node) : Option (String × String) :=
  match preview_div.find1 (fun n => isTag "a" n && hasAttr "href" n) with
  | none => none
  | some anchor_tag =>
    let link_url := pyStrip ((attrGet "href" anchor_tag).getD "")
    match anchor_tag.find1 (fun n => isTag "div" n && matchesClass "ld-item-title" n) with
    | none => none
    | some title_div => some (getTextStrip title_div, link_url)

/-- The parsing part of `extract_preview_links_and_titles`: fold the
containers into the result `dict`. -/
def extract_links_pure (soup : Node) : List (String × String) :=
  (previewDivs soup).foldl
    (fun m c =>
      match containerEntry c with
      | none => m
      | some (t, u) => dictInsert m t u)
    []

/-- `extract_preview_links_and_titles(page_url)`: fetch the page
(`raise_for_status` propagates) and parse it. The second component is
the list of URLs fetched. -/
def extract_preview_links_and_titles (fetch : Fetch) (page_url : String) :
    Except PyError (List (String × String)) × List String :=
  match fetch page_url with
  | .error _ => (.error .requestException, [page_url])
  | .ok r => (.ok (extract_links_pure r.body), [page_url])

/-! ## `get_paragraphs_from_url` -/

/-- `[p.get_text(strip=True) for p in soup.find_all("p") if p.get_text(strip=True)]`. -/
def paragraphTexts (soup : Node) : List String :=
  ((soup.findAll (isTag "p")).map getTextStrip).filter (fun s => s ≠ "")

/-- The text assembly of `get_paragraphs_from_url`: the non-empty
paragraph texts, Python-sliced `[:-12]`, joined by `"\n\n"`. -/
def chapterTextOf (soup : Node) : String :=
  let ps := paragraphTexts soup
  joinWith "\n\n" (ps.take (ps.length - 12))

/-- `get_paragraphs_from_url(url)`: fetch (a `RequestException` is
re-raised unchanged), reject a `Content-Type` without `"html"` with a
`ValueError`, else extract the chapter text. -/
def get_paragraphs_from_url (fetch : Fetch) (url : String) :
    Except PyError String × List String :=
  match fetch url with
  | .error _ => (.error .requestException, [url])
  | .ok r =>
    if containsSub r.contentType "html" then
      (.ok (chapterTextOf r.body), [url])
    else
      (.error (.contentTypeError r.contentType), [url])

/-! ## `get_title_and_author` -/

/-- The literal separator `" â€“ "` of `titles.split(" â€“ ")` in the
source: a space, U+00E2, U+20AC, U+201C, a space — the UTF-8 bytes of an
en dash (U+2013) mis-decoded as cp1252, not a real en dash. -/
def mojibakeDelim : String :=
  String.mk [' ', Char.ofNat 0xE2, Char.ofNat 0x20AC, Char.ofNat 0x201C, ' ']

/-- `[tag.get_text(strip=True) for tag in soup.find_all(class_="page-header-title")]`. -/
def headerTexts (soup : Node) : List String :=
  (soup.findAll (matchesClass "page-header-title")).map getTextStrip

/-- The parsing part of `get_title_and_author`: `[...][0]` raises
`IndexError` on an empty list, else the first header text is split on
`mojibakeDelim`. -/
def get_title_and_author_pure (soup : Node) : Except PyError (List String) :=
  match headerTexts soup with
  | [] => .error .indexError
  | t :: _ => .ok (pySplitOn t mojibakeDelim)

/-- `get_title_and_author(url)`: a failed fetch is converted to
`RuntimeError`; otherwise the page is parsed. -/
def get_title_and_author (fetch : Fetch) (url : String) :
    Except PyError (List String) × List String :=
  match fetch url with
  | .error _ => (.error .runtimeError, [url])
  | .ok r => (get_title_and_author_pure r.body, [url])

/-! ## `get_cover_picture` -/

/-- `srcset.split(" ")[0]` (a Python `split` on a non-empty separator
always yields at least one part, so the indexing cannot fail). -/
def srcsetFirst (srcset : String) : String :=
  (pySplitOn srcset " ").headD ""

/-- The body of `get_cover_picture` after the page fetch. `bs4.Tag` is
always truthy, so `if not picture_tag:` / `if not source_tag:` are
`None` tests on the `find` results. A missing `srcset` makes
`source_tag.get("srcset")` return `None` and `.split(" ")` on it raise
`AttributeError`. The `try` block catches only
`requests.RequestException` (→ `None`); a decode failure of
`Image.open` propagates. The second component lists the image URLs
fetched. -/
def get_cover_picture_pure (soup : Node) (fetch : Fetch) (decode : Decode) :
    Except PyError (Option PILImage) × List String :=
  match soup.find1 (isTag "picture") with
  | none => (.ok none, [])
  | some picture_tag =>
    match picture_tag.find1 (isTag "source") with
    | none => (.ok none, [])
    | some source_tag =>
      match attrGet "srcset" source_tag with
      | none => (.error .attributeError, [])
      | some srcset =>
        let image_url := srcsetFirst srcset
        match fetch image_url with
        | .error _ => (.ok none, [image_url])
        | .ok ir =>
          match decode ir.content with
          | .error _ => (.error .imageDecodeError, [image_url])
          | .ok img => (.ok (some img), [image_url])

/-- `get_cover_picture(url)`: the page fetch's `raise_for_status` is
outside any `try`, so its failure propagates; then the body above. -/
def get_cover_picture (fetch : Fetch) (decode : Decode) (url : String) :
    Except PyError (Option PILImage) × List String :=
  match fetch url with
  | .error _ => (.error .requestException, [url])
  | .ok r =>
    let res := get_cover_picture_pure r.body fetch decode
    (res.1, url :: res.2)

/-! ## `save_book` -/

/-- The in-memory `pypub.Epub` container, as `save_book` fills it. -/
structure Epub where
  title : String
  creator : String
  language : String
  cover : Option String
  chapters : List (String × String)
deriving Repr, DecidableEq

/-- Filesystem effects of `save_book`. `closeTempHandle` is
`temp_file.close()` on a `NamedTemporaryFile(delete=False)` handle:
it closes the descriptor and does NOT delete the file. `removeFile`
would be an `os.remove`/`unlink`; `save_book` never performs one. -/
inductive FsEvent where
  /-- `tempfile.NamedTemporaryFile(delete=False, suffix=".png")`:
  a file appears on disk. -/
  | createTempFile (path : String)
  /-- `cover_image.save(temp_file.name)`. -/
  | writeImage (path : String)
  /-- `epub_file.create(save_file)`: the EPUB output file is written. -/
  | createEpubFile (path : Option String)
  /-- `temp_file.close()` (with `delete=False`: no deletion). -/
  | closeTempHandle (path : String)
  /-- An explicit file deletion (never emitted by `save_book`). -/
  | removeFile (path : String)
deriving Repr, DecidableEq

/-- The (symbolic) name handed out by `tempfile.NamedTemporaryFile`. -/
def tempPath : String := "/tmp/cover.png"

/-- The chapter loop of `save_book`: each `(title, content)` pair is
turned into a chapter and appended to the container; `chapterFail`
injects a failure of the external `pypub` calls
(`create_chapter_from_text` / `add_chapter`), which propagates. -/
def addChapters (chapterFail : String → String → Bool) :
    Epub → List (String × String) → Except PyError Epub
  | epub, [] => .ok epub
  | epub, (t, c) :: rest =>
    if chapterFail t c then .error .chapterWriteError
    else addChapters chapterFail { epub with chapters := epub.chapters ++ [(t, c)] } rest

/-- `save_book(book, save_file, title, author, cover_image)`. A present
cover (`if cover_image:`; a `PIL.Image` object is truthy) materialises
the temporary file and sets `epub_file.cover`; then the chapters are
added; then `epub_file.create(save_file)`; then, only when a temp file
was made, `temp_file.close()`. An exception while adding chapters
propagates at once, skipping both `create` and `close`. Returns the
final container (or the propagated error) and the filesystem events in
order. -/
def save_book (book : List (String × String)) (save_file : Option String)
    (title author : String) (cover_image : Option PILImage)
    (chapterFail : String → String → Bool) :
    Except PyError Epub × List FsEvent :=
  let epub0 : Epub := ⟨title, author, "bn", none, []⟩
  match cover_image with
  | none =>
    match addChapters chapterFail epub0 book with
    | .error e => (.error e, [])
    | .ok epub1 => (.ok epub1, [.createEpubFile save_file])
  | some _ =>
    let epub0c : Epub := { epub0 with cover := some tempPath }
    let evs0 : List FsEvent := [.createTempFile tempPath, .writeImage tempPath]
    match addChapters chapterFail epub0c book with
    | .error e => (.error e, evs0)
    | .ok epub1 =>
      (.ok epub1, evs0 ++ [.createEpubFile save_file, .closeTempHandle tempPath])

/-- Is the temporary cover file present on disk once the trace `evs` has
run? It is there exactly when it was created and never removed
(closing a `delete=False` handle does not remove it). -/
def tempFileOnDisk (evs : List FsEvent) : Bool :=
  evs.contains (.createTempFile tempPath) && ! evs.contains (.removeFile tempPath)

/-! ## `scrape_book_from_url` -/

/-- The mapping returned to programmatic callers. -/
structure ScrapeOutput where
  title : String
  author : String
  cover_picture : Option PILImage
  book : List (String × String)
deriving Repr, DecidableEq

/-- Python truthiness of the `save_file` argument: `None` and `""` are
falsy, every other string is truthy. -/
def truthyPath : Option String → Bool
  | none => false
  | some s => s ≠ ""

/-- `f"{title}-{author}.epub"`. -/
def derivedName (title author : String) : String :=
  title ++ "-" ++ author ++ ".epub"

/-- `if save_file: save_file = f"{title}-{author}.epub"`. -/
def resolveSavePath (save_file : Option String) (title author : String) :
    Option String :=
  if truthyPath save_file then some (derivedName title author) else save_file

/-- The chapter-scraping loop of `scrape_book_from_url`: each chapter
URL is fetched via `get_paragraphs_from_url` and the text stored under
its title (`book[chapter_title] = chapter_content`); the first failure
propagates. Also returns the URLs fetched so far. -/
def scrapeChapters (fetch : Fetch) :
    List (String × String) → List (String × String) →
    Except PyError (List (String × String)) × List String
  | book, [] => (.ok book, [])
  | book, (t, u) :: rest =>
    match get_paragraphs_from_url fetch u with
    | (.error e, log) => (.error e, log)
    | (.ok content, log) =>
      let res := scrapeChapters fetch (dictInsert book t content) rest
      (res.1, log ++ res.2)

/-- `scrape_book_from_url(url, save_file)`: links, then
`title, author = get_title_and_author(url)` (a split without exactly
two parts makes the unpacking raise `ValueError`), then the cover, then
the chapters, then the save-path rewrite, then `save_book`. Returns the
result, the full fetch log, and the filesystem events of `save_book`
(empty when it was never invoked). -/
def scrape_book_from_url (fetch : Fetch) (decode : Decode) (url : String)
    (save_file : Option String) (chapterFail : String → String → Bool) :
    Except PyError ScrapeOutput × List String × List FsEvent :=
  match extract_preview_links_and_titles fetch url with
  | (.error e, log1) => (.error e, log1, [])
  | (.ok chapter_links, log1) =>
    match get_title_and_author fetch url with
    | (.error e, log2) => (.error e, log1 ++ log2, [])
    | (.ok parts, log2) =>
      match parts with
      | [title, author] =>
        match get_cover_picture fetch decode url with
        | (.error e, log3) => (.error e, log1 ++ log2 ++ log3, [])
        | (.ok cover_picture, log3) =>
          match scrapeChapters fetch [] chapter_links with
          | (.error e, log4) => (.error e, log1 ++ log2 ++ log3 ++ log4, [])
          | (.ok book, log4) =>
            let save_file2 := resolveSavePath save_file title author
            let sres := save_book book save_file2 title author cover_picture chapterFail
            match sres.1 with
            | .error e => (.error e, log1 ++ log2 ++ log3 ++ log4, sres.2)
            | .ok _ =>
              (.ok ⟨title, author, cover_picture, book⟩,
               log1 ++ log2 ++ log3 ++ log4, sres.2)
      | _ => (.error .valueError, log1 ++ log2, [])

/-! ## Concrete fixtures -/

/-- A well-formed preview container with title `t` and link `u`. -/
def pv (t u : String) : Node :=
  Node.el "div" ["ld-item-list-item-preview"] []
    [Node.el "a" [] [("href", u)] [Node.el "div" ["ld-item-title"] [] [.text t]]]

/-- A `page-header-title` header holding the text `s`. -/
def headerNode (s : String) : Node :=
  Node.el "h1" ["page-header-title"] [] [.text s]

/-- A paragraph holding the text `s`. -/
def para (s : String) : Node := Node.el "p" [] [] [.text s]

/-- A chapter page with 13 non-empty paragraphs `P1 … P13`. -/
def chapBody : Node :=
  Node.el "body" [] []
    [para "P1", para "P2", para "P3", para "P4", para "P5", para "P6", para "P7",
     para "P8", para "P9", para "P10", para "P11", para "P12", para "P13"]

/-- A chapter page with just two non-empty paragraphs. -/
def smallChapter : Node := Node.el "body" [] [] [para "one", para "two"]

/-- A listing page with one chapter link and a mojibake-delimited header
(so that the title/author unpacking succeeds), and no cover picture. -/
def listingBody : Node :=
  Node.el "body" [] []
    [pv "Ch1" " chap1 ", headerNode ("Title" ++ mojibakeDelim ++ "Author")]

/-- A transport where the listing lives at `"home"` and the single
chapter at `"chap1"`. -/
def testFetch : Fetch := fun u =>
  if u = "home" then .ok ⟨"text/html", listingBody, ""⟩
  else if u = "chap1" then .ok ⟨"text/html; charset=utf-8", chapBody, ""⟩
  else .error ()

/-- Like `testFetch`, but the chapter URL answers with a non-HTML
content type. -/
def badChapterFetch : Fetch := fun u =>
  if u = "home" then .ok ⟨"text/html", listingBody, ""⟩
  else if u = "chap1" then .ok ⟨"application/json", chapBody, ""⟩
  else .error ()

/-- A decoder that accepts every byte string. -/
def okDecode : Decode := fun s => .ok ⟨s⟩

/-- No injected `pypub` failures. -/
def noFail : String → String → Bool := fun _ _ => false

/-- A header whose text uses a real en dash (U+2013), as in the spec's
`"Title – Author"` example. -/
def titleAuthorEnDash : String :=
  "Title " ++ String.singleton (Char.ofNat 0x2013) ++ " Author"

/-- A listing page whose header is `"Title – Author"` with a real en dash. -/
def enDashHeaderPage : Node := Node.el "body" [] [] [headerNode titleAuthorEnDash]

/-- A page with no `page-header-title` element at all. -/
def noHeaderPage : Node := Node.el "body" [] [] [para "x"]

/-- A page whose header text carries the mojibake delimiter the code
actually splits on. -/
def mojibakeHeaderPage : Node :=
  Node.el "body" [] [] [headerNode ("Title" ++ mojibakeDelim ++ "Author")]

/-- Two well-formed preview containers with the same title. -/
def dupPage : Node := Node.el "body" [] [] [pv "Ch" "u1", pv "Ch" "u2"]

/-- Two well-formed preview containers with distinct titles. -/
def twoItemPage : Node := Node.el "body" [] [] [pv "A" "u1", pv "B" "u2"]

/-- A listing page with a `picture` whose `source` has a `srcset`. -/
def coverPage : Node :=
  Node.el "body" [] []
    [Node.el "picture" [] [] [Node.el "source" [] [("srcset", "img1 1x")] []]]

/-- A listing page with a `picture` whose first `source` has no
`srcset` attribute. -/
def noSrcsetPage : Node :=
  Node.el "body" [] []
    [Node.el "picture" [] [] [Node.el "source" [] [("type", "image/webp")] []]]

/-- Serves `coverPage` at `"cover"` and image bytes everywhere else. -/
def coverFetch : Fetch := fun u =>
  if u = "cover" then .ok ⟨"text/html", coverPage, ""⟩
  else .ok ⟨"image/png", .text "", "IMG"⟩

/-- A decoder that rejects every byte string (`PIL` cannot identify the
image). -/
def badDecode : Decode := fun _ => .error ()

/-- Serves a page with a picture whose source lacks `srcset`. -/
def noSrcsetFetch : Fetch := fun _ => .ok ⟨"text/html", noSrcsetPage, ""⟩

/-- Serves a page with no `picture` element at all. -/
def noPictureFetch : Fetch := fun _ => .ok ⟨"text/html", Node.el "body" [] [] [], ""⟩

/-! ## Helper lemmas -/

/-- The chapter loop with no injected failure appends exactly the book's
chapters, in order, to the container. -/
theorem addChapters_noFail (book : List (String × String)) (epub : Epub) :
    addChapters noFail epub book = .ok { epub with chapters := epub.chapters ++ book } := by
  induction book generalizing epub with
  | nil => simp [addChapters]
  | cons hd tl ih =>
    obtain ⟨t, c⟩ := hd
    simp [addChapters, noFail, ih, List.append_assoc]

/-- An error escaping `addChapters` is always the injected chapter-write
failure. -/
theorem addChapters_error (cf : String → String → Bool) (book : List (String × String))
    (epub : Epub) (e : PyError) (h : addChapters cf epub book = .error e) :
    e = .chapterWriteError := by
  induction book generalizing epub with
  | nil => simp [addChapters] at h
  | cons hd tl ih =>
    obtain ⟨t, c⟩ := hd
    rw [addChapters] at h
    by_cases hf : cf t c = true
    · rw [if_pos hf] at h
      exact ((Except.error.injEq _ _).mp h).symm
    · rw [if_neg hf] at h
      exact ih _ h

/-- Inserting a key absent from the dict appends the pair at the end. -/
theorem dictInsert_append (m : List (String × String)) (t u : String)
    (h : ∀ p ∈ m, p.1 ≠ t) : dictInsert m t u = m ++ [(t, u)] := by
  have hany : m.any (fun p => p.1 == t) = false := by
    rw [List.any_eq_false]
    intro p hp
    simpa using h p hp
  simp [dictInsert, hany]

/-- The Link Extractor's fold over containers equals appending the
well-formed containers' entries, provided the incoming titles collide
neither with the accumulator nor with each other. -/
theorem links_foldl (cs : List Node) (m : List (String × String))
    (h : (m.map Prod.fst ++ (cs.filterMap containerEntry).map Prod.fst).Nodup) :
    cs.foldl
      (fun m c =>
        match containerEntry c with
        | none => m
        | some (t, u) => dictInsert m t u)
      m
      = m ++ cs.filterMap containerEntry := by
  induction cs generalizing m with
  | nil => simp
  | cons c cs ih =>
    cases hc : containerEntry c with
    | none =>
      rw [List.foldl_cons]
      simp only [hc]
      rw [List.filterMap_cons_none hc] at h ⊢
      exact ih m h
    | some tu =>
      obtain ⟨t, u⟩ := tu
      rw [List.filterMap_cons_some hc] at h ⊢
      have hmt : ∀ p ∈ m, p.1 ≠ t := by
        intro p hp hpt
        have hdisj := (List.nodup_append.mp h).2.2
        exact hdisj (by simpa [hpt] using List.mem_map_of_mem Prod.fst hp)
          (by simp)
      rw [List.foldl_cons]
      simp only [hc]
      rw [dictInsert_append m t u hmt]
      have h2 : ((m ++ [(t, u)]).map Prod.fst
          ++ (cs.filterMap containerEntry).map Prod.fst).Nodup := by
        simpa [List.append_assoc] using h
      rw [ih (m ++ [(t, u)]) h2, List.append_assoc]
      simp

/-- `filterMap` keeps the length when the function succeeds everywhere. -/
theorem filterMap_length_all_isSome {α β : Type} (f : α → Option β) (l : List α)
    (h : ∀ a ∈ l, (f a).isSome) : (l.filterMap f).length = l.length := by
  induction l with
  | nil => rfl
  | cons a l ih =>
    obtain ⟨b, hb⟩ := Option.isSome_iff_exists.mp (h a (List.mem_cons_self a l))
    rw [List.filterMap_cons, hb]
    simp [ih (fun x hx => h x (List.mem_cons_of_mem a hx))]

/-- `get_paragraphs_from_url` fetches exactly its own URL, once, on
every path. -/
theorem get_paragraphs_log (fetch : Fetch) (u : String) :
    (get_paragraphs_from_url fetch u).2 = [u] := by
  cases h : fetch u with
  | error e => simp [get_paragraphs_from_url, h]
  | ok r =>
    cases hct : containsSub r.contentType "html" <;>
      simp [get_paragraphs_from_url, h, hct]

/-- A successful chapter loop fetched exactly the chapter URLs, once
each, in listing order. -/
theorem scrapeChapters_ok_log (fetch : Fetch) (links book0 b : List (String × String))
    (h : (scrapeChapters fetch book0 links).1 = .ok b) :
    (scrapeChapters fetch book0 links).2 = links.map Prod.snd := by
  induction links generalizing book0 with
  | nil => rfl
  | cons hd tl ih =>
    obtain ⟨t, u⟩ := hd
    cases hg : get_paragraphs_from_url fetch u with
    | mk res log =>
      have hlog : log = [u] := by
        have h0 := get_paragraphs_log fetch u
        rw [hg] at h0
        exact h0
      cases res with
      | error e =>
        rw [scrapeChapters, hg] at h
        exact absurd h (by simp)
      | ok content =>
        rw [scrapeChapters, hg] at h ⊢
        simp only at h ⊢
        rw [hlog, ih _ h]
        rfl

/-- The cover body performs at most one image fetch. -/
theorem cover_pure_log_le_one (soup : Node) (fetch : Fetch) (decode : Decode) :
    (get_cover_picture_pure soup fetch decode).2.length ≤ 1 := by
  cases hp : soup.find1 (isTag "picture") with
  | none => simp [get_cover_picture_pure, hp]
  | some pic =>
    cases hs : pic.find1 (isTag "source") with
    | none => simp [get_cover_picture_pure, hp, hs]
    | some src =>
      cases ha : attrGet "srcset" src with
      | none => simp [get_cover_picture_pure, hp, hs, ha]
      | some ss =>
        cases hf2 : fetch (srcsetFirst ss) with
        | error e => simp [get_cover_picture_pure, hp, hs, ha, hf2]
        | ok ir =>
          cases hd : decode ir.content <;>
            simp [get_cover_picture_pure, hp, hs, ha, hf2, hd]

/-- `save_book` never emits a `removeFile` event. -/
theorem save_book_no_removeFile (book : List (String × String)) (save_file : Option String)
    (title author : String) (cover : Option PILImage) (cf : String → String → Bool)
    (p : String) :
    FsEvent.removeFile p ∉ (save_book book save_file title author cover cf).2 := by
  cases cover with
  | none =>
    cases h : addChapters cf ⟨title, author, "bn", none, []⟩ book <;> simp [save_book, h]
  | some img =>
    cases h : addChapters cf ⟨title, author, "bn", some tempPath, []⟩ book <;>
      simp [save_book, h]

/-- When `save_book` fails, the failure is the injected chapter-write
error, and no EPUB output file was written. -/
theorem save_book_error_events (book : List (String × String)) (save_file : Option String)
    (title author : String) (cover : Option PILImage) (cf : String → String → Bool)
    (e : PyError)
    (h : (save_book book save_file title author cover cf).1 = .error e) :
    e = .chapterWriteError
    ∧ ∀ p, FsEvent.createEpubFile p ∉ (save_book book save_file title author cover cf).2 := by
  cases cover with
  | none =>
    cases hadd : addChapters cf ⟨title, author, "bn", none, []⟩ book with
    | error e2 =>
      have he2 := addChapters_error cf book _ e2 hadd
      simp only [save_book, hadd] at h ⊢
      simp only [Except.error.injEq] at h
      exact ⟨h ▸ he2, by simp⟩
    | ok epub => simp [save_book, hadd] at h
  | some img =>
    cases hadd : addChapters cf ⟨title, author, "bn", some tempPath, []⟩ book with
    | error e2 =>
      have he2 := addChapters_error cf book _ e2 hadd
      simp only [save_book, hadd] at h ⊢
      simp only [Except.error.injEq] at h
      exact ⟨h ▸ he2, by simp⟩
    | ok epub => simp [save_book, hadd] at h

/-! ## Claims -/

/-- C1: chapter-text extraction collects the stripped text of all
paragraph elements, discards the empty ones, drops exactly the last 12
of the remaining non-empty entries unconditionally (here phrased as
reverse/drop-12/reverse of the non-empty paragraph list), and joins the
survivors with a blank-line separator; for any page with 12 or fewer
non-empty paragraphs the result is the empty string. -/
theorem chapter_text_drops_last_twelve (soup : Node) :
    chapterTextOf soup
      = joinWith "\n\n" (((paragraphTexts soup).reverse.drop 12).reverse)
    ∧ ((paragraphTexts soup).length ≤ 12 → chapterTextOf soup = "") := by
  have hrd : chapterTextOf soup
      = joinWith "\n\n" ((paragraphTexts soup).rdrop 12) := rfl
  constructor
  · rw [hrd, List.rdrop_eq_reverse_drop_reverse]
  · intro h
    rw [hrd, List.rdrop, Nat.sub_eq_zero_of_le h, List.take_zero]
    rfl

/-- Witness for C1 at a concrete page with two non-empty paragraphs. -/
theorem chapter_text_drops_last_twelve_witness :
    (paragraphTexts smallChapter).length ≤ 12 ∧ chapterTextOf smallChapter = "" :=
  ⟨by decide, (chapter_text_drops_last_twelve smallChapter).2 (by decide)⟩

/-- C2 (refuted — the code keeps the file): whenever a cover image is
present, `save_book` creates the temporary cover file
(`NamedTemporaryFile(delete=False)`) and never removes it — on the
success path it only `close()`s the handle (which, with `delete=False`,
does not delete the file), and on a chapter-writing failure it does not
even reach the `close()`; so on every exit path the temporary file is
still on disk, contradicting the claim that it is absent. -/
theorem cover_temp_file_persists_on_every_exit (book : List (String × String))
    (save_file : Option String) (title author : String) (img : PILImage)
    (cf : String → String → Bool) :
    tempFileOnDisk (save_book book save_file title author (some img) cf).2 = true := by
  have hnorm := save_book_no_removeFile book save_file title author (some img) cf tempPath
  rw [tempFileOnDisk]
  cases h : addChapters cf ⟨title, author, "bn", some tempPath, []⟩ book with
  | error e =>
    simp [save_book, h] at hnorm ⊢
  | ok epub1 =>
    simp [save_book, h] at hnorm ⊢

/-- C10: with no cover image, `save_book` creates no temporary file,
leaves the container's cover unset, adds every chapter of the book in
map-iteration order, and writes the container to the destination path
(its full behaviour is the single `createEpubFile` event and the
container `⟨title, author, "bn", none, book⟩`). -/
theorem save_book_without_cover (book : List (String × String))
    (save_file : Option String) (title author : String) :
    save_book book save_file title author none noFail
      = (.ok ⟨title, author, "bn", none, book⟩, [FsEvent.createEpubFile save_file])
    ∧ (∀ p, FsEvent.createTempFile p ∉ (save_book book save_file title author none noFail).2) := by
  have h : save_book book save_file title author none noFail
      = (.ok ⟨title, author, "bn", none, book⟩, [FsEvent.createEpubFile save_file]) := by
    simp [save_book, addChapters_noFail]
  refine ⟨h, fun p => ?_⟩
  rw [h]
  simp

/-- C3 counterexample: with no explicit save path (`None`), the run
succeeds but the Document Writer is invoked with `None`, not with the
derived `"{title}-{author}.epub"` — the derived default of the claim's
first half is never applied. -/
theorem save_path_default_counterexample :
    (scrape_book_from_url testFetch okDecode "home" none noFail).2.2
      = [FsEvent.createEpubFile none]
    ∧ (none : Option String) ≠ some (derivedName "Title" "Author") := by
  exact ⟨rfl, fun h => Option.noConfusion h⟩

/-- C3 as amended: `if save_file:` rewrites any truthy (non-empty)
caller-supplied path to the derived `"{title}-{author}.epub"`, and
passes a falsy path (`None` or `""`) through unchanged, so the derived
default is never applied when no path was given. -/
theorem save_path_resolution (save_file : Option String) (title author : String) :
    (truthyPath save_file = true →
      resolveSavePath save_file title author = some (derivedName title author))
    ∧ (truthyPath save_file = false →
      resolveSavePath save_file title author = save_file) := by
  constructor <;> intro h <;> simp [resolveSavePath, h]

/-- Witness for the amended C3 at the concrete path `"user.epub"`. -/
theorem save_path_resolution_witness :
    resolveSavePath (some "user.epub") "Title" "Author"
      = some (derivedName "Title" "Author") :=
  (save_path_resolution (some "user.epub") "Title" "Author").1 (by decide)

/-- C4 counterexample: on a header reading `"Title – Author"` with a
real en dash (U+2013), `get_title_and_author` does not split at all —
the code's literal separator is the mojibake `" â€“ "` — so it returns
the single-element list, not `("Title", "Author")`; and on a page with
no matching header it raises a raw `IndexError` (the code has no
`MetadataError` class at all). -/
theorem metadata_en_dash_counterexample :
    get_title_and_author_pure enDashHeaderPage = .ok [titleAuthorEnDash]
    ∧ ([titleAuthorEnDash] : List String) ≠ ["Title", "Author"]
    ∧ get_title_and_author_pure noHeaderPage = .error .indexError := by
  refine ⟨rfl, by decide, rfl⟩

/-- C4 as amended: metadata extraction takes the first
`page-header-title` element's stripped text and splits it on the
literal mojibake delimiter `" â€“ "` (the en dash's UTF-8 bytes
mis-decoded as cp1252), not on a real en dash; with no matching header
it raises a raw `IndexError` (there is no `MetadataError`), and an
absent delimiter yields a single-part list (which only fails later, at
the caller's tuple unpacking). -/
theorem metadata_extraction_behavior (soup : Node) :
    (headerTexts soup = [] → get_title_and_author_pure soup = .error .indexError)
    ∧ (∀ t rest, headerTexts soup = t :: rest →
        get_title_and_author_pure soup = .ok (pySplitOn t mojibakeDelim)) := by
  constructor
  · intro h
    simp [get_title_and_author_pure, h]
  · intro t rest h
    simp [get_title_and_author_pure, h]

/-- Witness for the amended C4: a header text carrying the mojibake
delimiter does split into `["Title", "Author"]`. -/
theorem metadata_extraction_behavior_witness :
    get_title_and_author_pure mojibakeHeaderPage = .ok ["Title", "Author"] := by
  have h := (metadata_extraction_behavior mojibakeHeaderPage).2
    ("Title" ++ mojibakeDelim ++ "Author") [] (by decide)
  rw [h]
  rfl

/-- C9: on a page whose `picture` has a first `source` without a
`srcset` attribute, `source_tag.get("srcset")` is `None` and
`.split(" ")` on it raises `AttributeError` — cover extraction is not
total there and returns absence for no value. -/
theorem cover_missing_srcset_raises :
    (get_cover_picture noSrcsetFetch okDecode "p").1 = .error .attributeError
    ∧ ∀ res : Option PILImage,
        (Except.error PyError.attributeError : Except PyError (Option PILImage))
          ≠ .ok res := by
  exact ⟨rfl, fun res h => Except.noConfusion h⟩

/-- C7 counterexample: with a well-formed `picture`/`source`/`srcset`,
a successful image fetch and a failing decode (`Image.open` raising a
non-`RequestException`), `get_cover_picture` raises instead of
returning absence: the `except requests.RequestException` clause does
not catch decode errors. -/
theorem cover_decode_failure_counterexample :
    (get_cover_picture coverFetch badDecode "cover").1 = .error .imageDecodeError
    ∧ (Except.error PyError.imageDecodeError : Except PyError (Option PILImage))
        ≠ .ok none := by
  exact ⟨rfl, fun h => Except.noConfusion h⟩

/-- C7 as amended: cover extraction returns absence (not an error) when
the page has no `picture` element, when the `picture` has no nested
`source` element, or when the image *fetch* fails; but a failure to
*decode* the fetched image propagates as an error, as does a
transport/status failure of the page fetch itself. -/
theorem cover_absence_cases (fetch : Fetch) (decode : Decode) (url : String) :
    (fetch url = .error () →
      (get_cover_picture fetch decode url).1 = .error .requestException)
    ∧ (∀ r, fetch url = .ok r → r.body.find1 (isTag "picture") = none →
        (get_cover_picture fetch decode url).1 = .ok none)
    ∧ (∀ r pic, fetch url = .ok r → r.body.find1 (isTag "picture") = some pic →
        pic.find1 (isTag "source") = none →
        (get_cover_picture fetch decode url).1 = .ok none)
    ∧ (∀ r pic src srcset, fetch url = .ok r →
        r.body.find1 (isTag "picture") = some pic →
        pic.find1 (isTag "source") = some src →
        attrGet "srcset" src = some srcset →
        fetch (srcsetFirst srcset) = .error () →
        (get_cover_picture fetch decode url).1 = .ok none) := by
  refine ⟨?_, ?_, ?_, ?_⟩ <;> intros <;>
    simp_all [get_cover_picture, get_cover_picture_pure]

/-- Witness for the amended C7: a page without a `picture` element
yields absence. -/
theorem cover_absence_cases_witness :
    (get_cover_picture noPictureFetch okDecode "p").1 = .ok none :=
  (cover_absence_cases noPictureFetch okDecode "p").2.1
    ⟨"text/html", Node.el "body" [] [] [], ""⟩ rfl rfl

/-- C6 counterexample: two well-formed preview containers that share a
title produce one entry, not two — the `dict` write collapses duplicate
titles (last-write-wins), so "exactly N entries" fails without a
distinct-titles proviso. -/
theorem link_extractor_duplicate_titles_counterexample :
    (previewDivs dupPage).map containerEntry
      = [some ("Ch", "u1"), some ("Ch", "u2")]
    ∧ (previewDivs dupPage).length = 2
    ∧ extract_links_pure dupPage = [("Ch", "u2")]
    ∧ (extract_links_pure dupPage).length ≠ (previewDivs dupPage).length := by
  refine ⟨rfl, rfl, rfl, by decide⟩

/-- C6 as amended: provided the extracted titles are pairwise distinct,
the Link Extractor returns exactly the well-formed containers' entries
in document order (so N well-formed containers give exactly N entries);
a container missing the anchor or the title node is skipped without
affecting its siblings, and zero containers give the empty map. -/
theorem link_extractor_wellformed (soup : Node)
    (h : (((previewDivs soup).filterMap containerEntry).map Prod.fst).Nodup) :
    extract_links_pure soup = (previewDivs soup).filterMap containerEntry
    ∧ (previewDivs soup = [] → extract_links_pure soup = [])
    ∧ ((∀ c ∈ previewDivs soup, (containerEntry c).isSome) →
        (extract_links_pure soup).length = (previewDivs soup).length) := by
  have heq : extract_links_pure soup = (previewDivs soup).filterMap containerEntry := by
    have hfold := links_foldl (previewDivs soup) [] (by simpa using h)
    simpa [extract_links_pure] using hfold
  refine ⟨heq, ?_, ?_⟩
  · intro h0
    rw [heq, h0]
    rfl
  · intro hwf
    rw [heq]
    exact filterMap_length_all_isSome containerEntry (previewDivs soup) hwf

/-- Witness for the amended C6 on a page with two distinct titles. -/
theorem link_extractor_wellformed_witness :
    extract_links_pure twoItemPage
      = (previewDivs twoItemPage).filterMap containerEntry
    ∧ extract_links_pure twoItemPage = [("A", "u1"), ("B", "u2")] :=
  ⟨(link_extractor_wellformed twoItemPage (by decide)).1, rfl⟩

/-- C5 counterexample: on a successful run over a one-chapter listing,
the fetch log is `[listing, listing, listing, chapter]` — the listing
URL is fetched three times (once each by the Link Extractor, the
Metadata Extractor and the Cover Extractor), not exactly once as the
claim states. -/
theorem listing_fetch_count_counterexample :
    (scrape_book_from_url testFetch okDecode "home" none noFail).2.1
      = ["home", "home", "home", "chap1"]
    ∧ ((scrape_book_from_url testFetch okDecode "home" none noFail).2.1).count "home" ≠ 1 :=
  ⟨rfl, by decide⟩

/-- C5 as amended: on every successful run, the Book Assembler fetches
the listing page exactly three times (the Link Extractor, the Metadata
Extractor and the Cover Extractor each refetch it), then performs at
most one cover-image fetch, then fetches each chapter page once per
link in listing order. -/
theorem listing_fetched_thrice_then_chapters (fetch : Fetch) (decode : Decode)
    (url : String) (save_file : Option String) (cf : String → String → Bool)
    (out : ScrapeOutput)
    (h : (scrape_book_from_url fetch decode url save_file cf).1 = .ok out) :
    ∃ r imgLog, fetch url = .ok r ∧ imgLog.length ≤ 1 ∧
      (scrape_book_from_url fetch decode url save_file cf).2.1
        = url :: url :: url :: (imgLog ++ (extract_links_pure r.body).map Prod.snd) := by
  cases hf : fetch url with
  | error e =>
    exfalso
    simp [scrape_book_from_url, extract_preview_links_and_titles, hf] at h
  | ok r =>
    have he : extract_preview_links_and_titles fetch url
        = (.ok (extract_links_pure r.body), [url]) := by
      simp [extract_preview_links_and_titles, hf]
    have ht : get_title_and_author fetch url
        = (get_title_and_author_pure r.body, [url]) := by
      simp [get_title_and_author, hf]
    have hc : get_cover_picture fetch decode url
        = ((get_cover_picture_pure r.body fetch decode).1,
           url :: (get_cover_picture_pure r.body fetch decode).2) := by
      simp [get_cover_picture, hf]
    refine ⟨r, (get_cover_picture_pure r.body fetch decode).2, rfl,
      cover_pure_log_le_one r.body fetch decode, ?_⟩
    simp only [scrape_book_from_url, he, ht, hc] at h ⊢
    cases hta : get_title_and_author_pure r.body with
    | error e =>
      simp only [hta] at h
      exact absurd h (by simp)
    | ok parts =>
      simp only [hta] at h ⊢
      cases parts with
      | nil => simp at h
      | cons t ps =>
        cases ps with
        | nil => simp at h
        | cons a ps2 =>
          cases ps2 with
          | cons x ps3 => simp at h
          | nil =>
            simp only at h ⊢
            cases hcov : (get_cover_picture_pure r.body fetch decode).1 with
            | error e =>
              simp only [hcov] at h
              exact absurd h (by simp)
            | ok cov =>
              simp only [hcov] at h ⊢
              cases hsc : scrapeChapters fetch [] (extract_links_pure r.body) with
              | mk res4 log4 =>
                simp only [hsc] at h ⊢
                cases res4 with
                | error e => simp at h
                | ok book =>
                  have hlog4 : log4 = (extract_links_pure r.body).map Prod.snd := by
                    have h1 : (scrapeChapters fetch [] (extract_links_pure r.body)).1
                        = .ok book := by
                      rw [hsc]
                    have h2 := scrapeChapters_ok_log fetch (extract_links_pure r.body)
                      [] book h1
                    rw [hsc] at h2
                    exact h2
                  simp only at h ⊢
                  cases hsb : (save_book book (resolveSavePath save_file t a) t a cov cf).1 with
                  | error e2 => simp [hsb, hlog4]
                  | ok epub => simp [hsb, hlog4]

/-- Witness for the amended C5 on the concrete one-chapter environment. -/
theorem listing_fetched_thrice_then_chapters_witness :
    ∃ r imgLog, testFetch "home" = .ok r ∧ imgLog.length ≤ 1 ∧
      (scrape_book_from_url testFetch okDecode "home" none noFail).2.1
        = "home" :: "home" :: "home"
            :: (imgLog ++ (extract_links_pure r.body).map Prod.snd) :=
  listing_fetched_thrice_then_chapters testFetch okDecode "home" none noFail
    ⟨"Title", "Author", none, [("Ch1", "P1")]⟩ rfl

/-- C8: whenever the run fails with any error, no EPUB output file was
written (no `createEpubFile` event occurs); moreover for every fatal
error other than a failure inside the Document Writer itself — in
particular a chapter fetch failure or a non-HTML chapter content type —
the Document Writer was never invoked at all (the event trace is
empty). -/
theorem no_output_on_fatal_error (fetch : Fetch) (decode : Decode) (url : String)
    (save_file : Option String) (cf : String → String → Bool) (e : PyError)
    (h : (scrape_book_from_url fetch decode url save_file cf).1 = .error e) :
    (∀ p, FsEvent.createEpubFile p
        ∉ (scrape_book_from_url fetch decode url save_file cf).2.2)
    ∧ (e ≠ .chapterWriteError →
        (scrape_book_from_url fetch decode url save_file cf).2.2 = []) := by
  cases hf : fetch url with
  | error e0 =>
    simp [scrape_book_from_url, extract_preview_links_and_titles, hf]
  | ok r =>
    have he : extract_preview_links_and_titles fetch url
        = (.ok (extract_links_pure r.body), [url]) := by
      simp [extract_preview_links_and_titles, hf]
    have ht : get_title_and_author fetch url
        = (get_title_and_author_pure r.body, [url]) := by
      simp [get_title_and_author, hf]
    have hc : get_cover_picture fetch decode url
        = ((get_cover_picture_pure r.body fetch decode).1,
           url :: (get_cover_picture_pure r.body fetch decode).2) := by
      simp [get_cover_picture, hf]
    simp only [scrape_book_from_url, he, ht, hc] at h ⊢
    cases hta : get_title_and_author_pure r.body with
    | error e1 => simp [hta]
    | ok parts =>
      simp only [hta] at h ⊢
      cases parts with
      | nil => simp
      | cons t ps =>
        cases ps with
        | nil => simp
        | cons a ps2 =>
          cases ps2 with
          | cons x ps3 => simp
          | nil =>
            simp only at h ⊢
            cases hcov : (get_cover_picture_pure r.body fetch decode).1 with
            | error e1 => simp [hcov]
            | ok cov =>
              simp only [hcov] at h ⊢
              cases hsc : scrapeChapters fetch [] (extract_links_pure r.body) with
              | mk res4 log4 =>
                simp only [hsc] at h ⊢
                cases res4 with
                | error e1 => simp
                | ok book =>
                  simp only at h ⊢
                  cases hsb : (save_book book (resolveSavePath save_file t a) t a cov cf).1 with
                  | ok epub =>
                    simp only [hsb] at h
                    exact absurd h (by simp)
                  | error e2 =>
                    simp only [hsb] at h ⊢
                    have hev := save_book_error_events book
                      (resolveSavePath save_file t a) t a cov cf e2 hsb
                    simp only [Except.error.injEq] at h
                    refine ⟨hev.2, fun hne => ?_⟩
                    exact absurd (h ▸ hev.1) hne

/-- Witness for C8: a chapter URL answering with a non-HTML content
type aborts the run with no writer invocation and no output file. -/
theorem no_output_on_fatal_error_witness :
    FsEvent.createEpubFile none
      ∉ (scrape_book_from_url badChapterFetch okDecode "home" none noFail).2.2
    ∧ (scrape_book_from_url badChapterFetch okDecode "home" none noFail).2.2 = [] := by
  have h := no_output_on_fatal_error badChapterFetch okDecode "home" none noFail
    (.contentTypeError "application/json") rfl
  exact ⟨h.1 none, h.2 (by decide)⟩

end BongEpub

